import Mathlib

/-!
Verification of the chat-web5 relay server against its specification.

The JavaScript sources are shallowly embedded:
* JS `Map` objects become insertion-ordered association lists
  (`mapGet`/`mapSet`/`mapDelete`), JS `Set` objects become duplicate-free
  insertion-ordered lists (`setAdd`, removal by `List.filter`).
* Thrown exceptions become `Except` values; a handler that mutates state and
  then throws returns the state reached before the throw.
* Randomness (secrets, salts, IVs), wall-clock timestamps, the HMAC/PBKDF2/AES
  primitives of Node's `crypto` module and JSON serialization are taken as
  explicit parameters: the repository treats them as opaque collaborators.
* `x || d` on a possibly-absent JS number or string field is `jsOrNat`/`jsOrStr`
  (absent and falsy values fall back to the default, as in JS).
-/

namespace ChatWeb5

/-! ### JS Map / Set helpers -/

/-- Lookup in a JS `Map` modelled as an insertion-ordered association list. -/
def mapGet {κ α : Type} [DecidableEq κ] : List (κ × α) → κ → Option α
  | [], _ => none
  | (k', v) :: rest, k => if k' = k then some v else mapGet rest k

/-- JS `Map.prototype.set`: update in place when the key exists, otherwise
append a new entry at the end (insertion order). -/
def mapSet {κ α : Type} [DecidableEq κ] : List (κ × α) → κ → α → List (κ × α)
  | [], k, v => [(k, v)]
  | (k', v') :: rest, k, v =>
      if k' = k then (k, v) :: rest else (k', v') :: mapSet rest k v

/-- JS `Map.prototype.delete`. -/
def mapDelete {κ α : Type} [DecidableEq κ] : List (κ × α) → κ → List (κ × α)
  | [], _ => []
  | (k', v') :: rest, k =>
      if k' = k then mapDelete rest k else (k', v') :: mapDelete rest k

/-- JS `Set.prototype.add`: append when absent, no duplicates. -/
def setAdd {α : Type} [DecidableEq α] (s : List α) (a : α) : List α :=
  if a ∈ s then s else s ++ [a]

/-- JS truthiness of a possibly-absent string field (`undefined` and `""` are
falsy). -/
def jsTruthy : Option String → Bool
  | none => false
  | some s => s ≠ ""

/-- JS `x || d` for a possibly-absent numeric field (`undefined` and `0` are
falsy and fall back to the default). -/
def jsOrNat : Option Nat → Nat → Nat
  | none, d => d
  | some 0, d => d
  | some n, _ => n

/-- JS `x || d` for a possibly-absent string field. -/
def jsOrStr : Option String → String → String
  | none, d => d
  | some s, d => if s = "" then d else s

/-! ### WebhookManager (src/server/webhook/WebhookManager.js)

`this.webhooks` is a `Map` from chatId to the stored configuration.  The
`registeredAt` timestamp and the free-form `headers` object are irrelevant to
every claim and are omitted from the record.
-/

/-- Stored webhook configuration (`registerWebhook` lines 29-38). -/
structure WebhookConfig where
  url : String
  chatId : String
  ownerDid : String
  secret : String
  active : Bool
  retryAttempts : Nat
  timeout : Nat
deriving DecidableEq, Repr

/-- Caller-supplied webhook configuration object (`webhookConfig` argument of
`registerWebhook`); optional fields model absent JS properties. -/
structure WebhookInput where
  url : String
  secret : Option String
  retryAttempts : Option Nat
  timeout : Option Nat
deriving DecidableEq, Repr

/-- The `chatId -> config` map held in `this.webhooks`. -/
abbrev WebhookMap := List (String × WebhookConfig)

/-- `registerWebhook(chatId, ownerDid, webhookConfig)` (lines 28-43).
`freshSecret` stands for the random `this.generateSecret()` value.  The source
performs no authorization check: it unconditionally builds the config and
executes `this.webhooks.set(chatId, config)`, returning the config. -/
def registerWebhook (freshSecret : String) (st : WebhookMap)
    (chatId ownerDid : String) (w : WebhookInput) : WebhookConfig × WebhookMap :=
  let config : WebhookConfig :=
    { url := w.url
      chatId := chatId
      ownerDid := ownerDid
      secret := jsOrStr w.secret freshSecret
      active := true
      retryAttempts := jsOrNat w.retryAttempts 3
      timeout := jsOrNat w.timeout 5000 }
  (config, mapSet st chatId config)

/-- `canConfigureWebhook(chatId, did)` (lines 225-228): true when no webhook is
registered for the chat or the registered one is owned by `did`.  Defined in
the source but called from nowhere in the repository. -/
def canConfigureWebhook (st : WebhookMap) (chatId did : String) : Bool :=
  match mapGet st chatId with
  | none => true
  | some webhook => webhook.ownerDid = did

/-- `removeWebhook(chatId, requestingDid)` (lines 50-63).  Both throws happen
before the `delete`, so on error the map is returned unchanged. -/
def removeWebhook (st : WebhookMap) (chatId requestingDid : String) :
    Except String Bool × WebhookMap :=
  match mapGet st chatId with
  | none => (.error "Webhook não encontrado", st)
  | some webhook =>
      if webhook.ownerDid ≠ requestingDid then
        (.error "Apenas o dono da sala pode remover o webhook", st)
      else
        (.ok true, mapDelete st chatId)

/-- Kinds of JS runtime error relevant to the embedding. -/
inductive JsError where
  | typeError
  | referenceError
deriving DecidableEq, Repr

/-- Result of evaluating the call `this.sendWebhook(config, payload)` in
`testWebhook` (WebhookManager.js line 257).  The class defines
`sendWebhookRequest` but no method named `sendWebhook`, and no such method
exists anywhere in the repository, so the property access yields `undefined`
and the call raises `TypeError: this.sendWebhook is not a function`. -/
def sendWebhookCall : Except JsError Unit := .error .typeError

/-- `testWebhook(chatId, testData)` (lines 235-264): returns `false` when no
config exists or it is inactive; otherwise runs the `try` block, whose only
operation is the (failing) `this.sendWebhook` call, and the `catch` returns
`false`. -/
def testWebhook (st : WebhookMap) (chatId : String) : Bool :=
  match mapGet st chatId with
  | none => false
  | some config =>
      if config.active = false then false
      else
        match sendWebhookCall with
        | .ok _ => true
        | .error _ => false

/-- One HTTP POST attempt issued by `sendWebhookRequest` (lines 101-156):
the request body `jsonPayload` and the `X-Webhook-Signature` header value
`generateSignature(jsonPayload, webhook.secret)`. -/
structure Attempt where
  body : String
  signature : String
deriving DecidableEq, Repr

/-- Success criterion of `sendWebhookRequest` (line 133):
`res.statusCode >= 200 && res.statusCode < 300`. -/
def isSuccessStatus (s : Nat) : Bool := 200 ≤ s && s < 300

/-- `addToRetryQueue(webhook, payload, attempt)` (lines 164-182), unfolded into
the sequence of HTTP attempts it eventually performs.  `endpoint k` is the HTTP
status the remote endpoint returns to the k-th POST of this trigger (the
initial send is call 1, retry `attempt` is call `attempt + 1`).  A retry runs
only while `attempt <= retryAttempts`; on failure a further retry is scheduled
only while `attempt < retryAttempts`. -/
def retryFrom (hmac : String → String → String) (endpoint : Nat → Nat)
    (webhook : WebhookConfig) (jsonPayload : String) (attempt : Nat) :
    List Attempt :=
  if attempt ≤ webhook.retryAttempts then
    let a : Attempt := ⟨jsonPayload, hmac jsonPayload webhook.secret⟩
    if isSuccessStatus (endpoint (attempt + 1)) then [a]
    else if h : attempt < webhook.retryAttempts then
      a :: retryFrom hmac endpoint webhook jsonPayload (attempt + 1)
    else [a]
  else []
termination_by webhook.retryAttempts + 1 - attempt
decreasing_by omega

/-- `triggerWebhook(chatId, eventData)` (lines 70-94) as the sequence of HTTP
attempts it performs.  `jsonPayload` is `JSON.stringify` of the envelope
`{timestamp, chatId, event, metadata}` built on lines 76-84; every attempt for
one trigger serializes and signs this same envelope.  No config, or an
inactive one, means no attempt; otherwise the initial `sendWebhookRequest`
runs and on failure `addToRetryQueue(webhook, payload, 1)` takes over. -/
def triggerWebhookCalls (hmac : String → String → String) (endpoint : Nat → Nat)
    (st : WebhookMap) (chatId jsonPayload : String) : List Attempt :=
  match mapGet st chatId with
  | none => []
  | some webhook =>
      if webhook.active = false then []
      else
        let a : Attempt := ⟨jsonPayload, hmac jsonPayload webhook.secret⟩
        if isSuccessStatus (endpoint 1) then [a]
        else a :: retryFrom hmac endpoint webhook jsonPayload 1

/-! ### CredentialCryptoService (src/server/crypto/CredentialCryptoService.js)

The service is parametrized over the external crypto collaborators:
* `kdf did salt` — `crypto.pbkdf2(userDid, salt, 100000, 32, sha256)`
  (`deriveKey`, lines 23-30), deterministic in its two inputs;
* `enc key plaintext` — the AES-256-CBC cipher built by
  `crypto.createCipher(this.algorithm, key)` (hex output, lines 59-61);
* `dec key ciphertext` — the matching `crypto.createDecipher` pipeline
  (lines 106-108), `none` when `decipher.final` throws (bad padding);
* `sha256hex` — `calculateChecksum` (lines 35-37);
* `stringify` / `parse` — `JSON.stringify` / `JSON.parse` on the credential
  type `α`, `parse` returning `none` when `JSON.parse` throws.
-/

/-- The object returned by `encryptCredential` (lines 64-73). -/
structure EncryptedCredential where
  version : String
  algorithm : String
  encrypted : String
  salt : String
  iv : String
  createdAt : String
  userDid : String
  checksum : String
deriving DecidableEq, Repr

/-- `encryptCredential(userDid, credential)` (lines 42-82).  `salt`, `iv` and
`now` stand for the two `crypto.randomBytes` draws (hex) and the
`new Date().toISOString()` timestamp.  The guard models `!userDid` (the
`credential` argument is a proper value of `α`, hence truthy); the surrounding
`catch` rethrows every failure as the one generic message.  Note the random
`iv` is stored in the blob but never fed to the cipher: `createCipher`
derives its own IV from the key. -/
def encryptCredential {α : Type} (kdf : String → String → String)
    (enc : String → String → String) (sha256hex : String → String)
    (stringify : α → String) (salt iv now : String)
    (userDid : String) (credential : α) : Except String EncryptedCredential :=
  if userDid = "" then .error "Falha na criptografia da credencial"
  else
    let key := kdf userDid salt
    let plaintext := stringify credential
    let encrypted := enc key plaintext
    .ok { version := "1.0"
          algorithm := "aes-256-cbc"
          encrypted := encrypted
          salt := salt
          iv := iv
          createdAt := now
          userDid := userDid
          checksum := sha256hex encrypted }

/-- `decryptCredential(userDid, encryptedCredential)` (lines 87-120).  The
ownership check `encryptedCredential.userDid !== userDid` throws; the key is
re-derived from the stored salt; `decipher.final` and `JSON.parse` failures
throw.  Every throw is caught on line 116 and rethrown as the single generic
message, so all failure modes surface identically.  The stored `checksum`
field is never read. -/
def decryptCredential {α : Type} (kdf : String → String → String)
    (dec : String → String → Option String) (parse : String → Option α)
    (userDid : String) (b : EncryptedCredential) : Except String α :=
  if userDid = "" then .error "Falha na descriptografia da credencial"
  else if b.userDid ≠ userDid then .error "Falha na descriptografia da credencial"
  else
    let key := kdf userDid b.salt
    match dec key b.encrypted with
    | none => .error "Falha na descriptografia da credencial"
    | some plaintext =>
        match parse plaintext with
        | none => .error "Falha na descriptografia da credencial"
        | some credential => .ok credential

/-- `validateCredentialIntegrity(encryptedCredential)` (lines 125-146), the
`valid` field of its result: the recomputed checksum of the stored ciphertext
compared with the recorded one.  This is the only place the checksum is
checked; `decryptCredential` never calls it. -/
def validateCredentialIntegrity (sha256hex : String → String)
    (b : EncryptedCredential) : Bool :=
  sha256hex b.encrypted = b.checksum

/-! ### WebSocketServer (src/unnamed/part_005, class `WebSocketServer`)

State per `constructor`: `this.clients` (a `Set` of open sockets),
`this.clientDids` (`Map` socket -> DID, set on authentication) and
`this.onlineUsers` (`Map` DID -> `{lastSeen, clientIds}`).  Sockets are
modelled by numeric connection ids; a socket is in `clients` exactly while it
is open (`handleConnection` adds it, `handleDisconnection` removes it), so the
`readyState === OPEN` guards of `sendToClient` and `broadcast` hold for every
member of `clients`.  Timestamps, the per-connection `clientId` string and the
DIDComm side registration are omitted: no claim depends on them. -/

abbrev ConnId := Nat
abbrev Did := String

/-- Outbound wire envelopes, restricted to the fields the claims inspect. -/
inductive Envelope where
  | connectionEstablished
  | authError (msg : String)
  | authenticated (did : Did)
  | errorMsg (msg : String)
  | chatMessage (chatId : Option String) (content : String) (sender : Did)
  | encryptedChat (chatId : String) (payload : String) (sender : Did)
  | encryptedChatSent (chatId : String)
  | encryptedChatError (msg : String)
  | userOnline (did : Did)
  | userOffline (did : Did)
deriving DecidableEq, Repr

/-- Value of the `onlineUsers` map: the `clientIds` socket set (`lastSeen`
omitted). -/
structure UserInfo where
  clientIds : List ConnId
deriving DecidableEq, Repr

/-- The mutable server state. -/
structure ServerState where
  clients : List ConnId
  clientDids : List (ConnId × Did)
  onlineUsers : List (Did × UserInfo)
deriving DecidableEq, Repr

/-- The empty state built by the constructor. -/
def initialState : ServerState := ⟨[], [], []⟩

/-- Observable effects of one handler run: the individual `ws.send` deliveries
(`sendToClient` calls and `broadcast` fan-out), the `broadcast(...)`
invocations themselves, and the `webhookManager.triggerWebhook` calls as
`(chatId, event-type tag)` pairs. -/
structure Output where
  sends : List (ConnId × Envelope)
  broadcasts : List Envelope
  triggers : List (String × String)
deriving DecidableEq, Repr

/-- Output with no effects. -/
def noOutput : Output := ⟨[], [], []⟩

/-- Fan-out of one `broadcast(message)` call (lines 910-918): every client in
the set receives the message (all of them are open), authenticated or not,
the sender included. -/
def broadcastSends (st : ServerState) (m : Envelope) : List (ConnId × Envelope) :=
  st.clients.map (fun c => (c, m))

/-- `handleConnection` (lines 438-454): add the socket to `clients` and greet
it.  No identity is attached yet. -/
def handleConnection (st : ServerState) (c : ConnId) : ServerState × Output :=
  ({ st with clients := setAdd st.clients c },
   { noOutput with sends := [(c, .connectionEstablished)] })

/-- `setUserOnline(did, ws)` (lines 849-859): create the entry on first use,
then add the socket to its `clientIds` set. -/
def setUserOnline (st : ServerState) (did : Did) (c : ConnId) : ServerState :=
  let info := (mapGet st.onlineUsers did).getD ⟨[]⟩
  { st with onlineUsers := mapSet st.onlineUsers did ⟨setAdd info.clientIds c⟩ }

/-- `handleAuthentication` (lines 554-595): reject a missing DID; otherwise
bind the socket to the DID, mark the user online, confirm to the caller and
then `broadcastUserOnline(did)` — unconditionally, with no check whether the
identity was already online. -/
def handleAuthentication (st : ServerState) (c : ConnId) (did : Did) :
    ServerState × Output :=
  if did = "" then
    (st, { noOutput with sends := [(c, .authError "DID é obrigatório")] })
  else
    let st1 := { st with clientDids := mapSet st.clientDids c did }
    let st2 := setUserOnline st1 did c
    (st2,
     { sends := [(c, .authenticated did)] ++ broadcastSends st2 (.userOnline did)
       broadcasts := [.userOnline did]
       triggers := [] })

/-- `handleChatMessage` (lines 600-628): an unauthenticated sender gets an
error; otherwise the enriched message goes through `broadcast` — to every
open client, the sender and unauthenticated sockets included — and a webhook
trigger fires when `message.chatId` is truthy. -/
def handleChatMessage (st : ServerState) (c : ConnId) (chatId : Option String)
    (content : String) : ServerState × Output :=
  match mapGet st.clientDids c with
  | none =>
      (st, { noOutput with sends := [(c, .errorMsg "Cliente não autenticado")] })
  | some senderDid =>
      let enriched := Envelope.chatMessage chatId content senderDid
      (st,
       { sends := broadcastSends st enriched
         broadcasts := [enriched]
         triggers :=
           match chatId with
           | none => []
           | some cid => if cid = "" then [] else [(cid, "chat_message")] })

/-- Result of evaluating the identifier `toDid` inside `handleEncryptedChat`
(src/unnamed/part_005, lines 797 and 803):
`toDid` is bound neither in the handler, nor in the class, nor at module
scope, so the read raises a `ReferenceError`, caught by the handler's own
`catch`. -/
def evalToDid : Except JsError Did := .error .referenceError

/-- `handleEncryptedChat` (lines 742-811).  After the authentication and
field-presence guards the `try` block (a) forwards the ciphertext to every
other open, authenticated client, (b) acknowledges the sender with
`encrypted_chat_sent`, then (c) builds the webhook event — whose `to: toDid`
property reads the unbound `toDid` — so the `catch` sends
`encrypted_chat_error` and `triggerWebhook` is never reached. -/
def handleEncryptedChat (st : ServerState) (c : ConnId)
    (chatId encryptedPayload : Option String) : ServerState × Output :=
  match mapGet st.clientDids c with
  | none =>
      (st, { noOutput with sends := [(c, .errorMsg "Cliente não autenticado")] })
  | some senderDid =>
      if jsTruthy chatId = false || jsTruthy encryptedPayload = false then
        (st, { noOutput with
                sends := [(c, .errorMsg "chatId e encryptedPayload são obrigatórios")] })
      else
        let cid := (chatId.getD "")
        let pl := (encryptedPayload.getD "")
        let fanout :=
          (st.clients.filter
            (fun cl => cl ≠ c && (mapGet st.clientDids cl).isSome)).map
            (fun cl => (cl, Envelope.encryptedChat cid pl senderDid))
        let ack := (c, Envelope.encryptedChatSent cid)
        match evalToDid with
        | .error _ =>
            (st, { sends := fanout ++ [ack,
                     (c, .encryptedChatError "Falha ao enviar mensagem criptografada")]
                   broadcasts := []
                   triggers := [] })
        | .ok _ =>
            (st, { sends := fanout ++ [ack]
                   broadcasts := []
                   triggers := [(cid, "encrypted_message")] })

/-- `setUserOffline(did, ws)` (lines 864-872): drop the socket from the
identity's set and delete the entry when the set empties. -/
def setUserOffline (st : ServerState) (did : Did) (c : ConnId) : ServerState :=
  match mapGet st.onlineUsers did with
  | none => st
  | some info =>
      let remaining := info.clientIds.filter (fun x => x ≠ c)
      if remaining = [] then
        { st with onlineUsers := mapDelete st.onlineUsers did }
      else
        { st with onlineUsers := mapSet st.onlineUsers did ⟨remaining⟩ }

/-- `handleDisconnection` (lines 816-834): remove the socket from `clients`
and `clientDids`; when it carried a DID, run `setUserOffline` and then
`broadcastUserOffline(did)` (lines 888-896), which broadcasts only when the
identity no longer appears in `onlineUsers`. -/
def handleDisconnection (st : ServerState) (c : ConnId) : ServerState × Output :=
  match mapGet st.clientDids c with
  | none =>
      ({ st with clients := st.clients.filter (fun x => x ≠ c)
                 clientDids := mapDelete st.clientDids c }, noOutput)
  | some did =>
      let st2 := setUserOffline
        { st with clients := st.clients.filter (fun x => x ≠ c)
                  clientDids := mapDelete st.clientDids c } did c
      if (mapGet st2.onlineUsers did).isSome then (st2, noOutput)
      else
        (st2, { sends := broadcastSends st2 (.userOffline did)
                broadcasts := [.userOffline did]
                triggers := [] })

/-! ### Connection lifecycle traces (for the presence claims)

The transport delivers, per socket, a `connection` event, at most one
`authenticate` message while open, and a `close` event.  A trace is valid when
`connect` introduces a socket that is not currently open and `auth` /
`disconnect` act on an open socket; for the single-identity presence claim all
authentications carry the same DID. -/

/-- Connection lifecycle events. -/
inductive Ev where
  | connect (c : ConnId)
  | auth (c : ConnId) (did : Did)
  | disconnect (c : ConnId)
deriving DecidableEq, Repr

/-- Dispatch of one lifecycle event to its handler. -/
def step (st : ServerState) : Ev → ServerState × Output
  | .connect c => handleConnection st c
  | .auth c did => handleAuthentication st c did
  | .disconnect c => handleDisconnection st c

/-- State after a sequence of lifecycle events. -/
def runState (st : ServerState) : List Ev → ServerState
  | [] => st
  | e :: es => runState (step st e).1 es

/-- Validity of one event against the current state, for traces whose
authentications all claim identity `d`. -/
def validEv (d : Did) (st : ServerState) : Ev → Bool
  | .connect c => decide (c ∉ st.clients)
  | .auth c did => decide (c ∈ st.clients) && decide (did = d)
  | .disconnect c => decide (c ∈ st.clients)

/-- Validity of a whole trace from a given state. -/
def validTrace (d : Did) : ServerState → List Ev → Bool
  | _, [] => true
  | st, e :: es => validEv d st e && validTrace d (step st e).1 es

/-- The open sockets currently authenticated as `d`, in authentication order. -/
def authedConns (st : ServerState) (d : Did) : List ConnId :=
  (st.clientDids.filter (fun p => p.2 = d)).map Prod.fst

/-- Reachable-state invariant for single-identity traces: every bound socket
carries identity `d` and is open, the binding keys are duplicate-free, and
`onlineUsers` is exactly the (possibly absent) entry for `d` whose socket set
lists the bound sockets in order. -/
def Inv (d : Did) (st : ServerState) : Prop :=
  (∀ p ∈ st.clientDids, p.2 = d ∧ p.1 ∈ st.clients) ∧
  (st.clientDids.map Prod.fst).Nodup ∧
  st.onlineUsers =
    (if st.clientDids = [] then []
     else [(d, ⟨st.clientDids.map Prod.fst⟩)])

/-! ### Concrete states used by the claim counterexamples and witnesses -/

/-- Server state with socket 0 open and authenticated as `did:a` and socket 1
open but unauthenticated. -/
def c1State : ServerState := ⟨[0, 1], [(0, "did:a")], [("did:a", ⟨[0]⟩)]⟩

/-- Server state with sockets 0, 1 authenticated (`did:a`, `did:b`) and
socket 2 open but unauthenticated. -/
def c4State : ServerState :=
  ⟨[0, 1, 2], [(0, "did:a"), (1, "did:b")], [("did:a", ⟨[0]⟩), ("did:b", ⟨[1]⟩)]⟩

/-- Server state where `did:a` is already online through socket 0 while
socket 1 is open and unauthenticated. -/
def c5State : ServerState := ⟨[0, 1], [(0, "did:a")], [("did:a", ⟨[0]⟩)]⟩

/-- Webhook configuration registered by `did:a` for chat `chat-1`. -/
def c2ConfigA : WebhookConfig :=
  { url := "https://a.example/hook", chatId := "chat-1", ownerDid := "did:a",
    secret := "s-a", active := true, retryAttempts := 3, timeout := 5000 }

/-- Manager state holding `did:a`'s configuration for `chat-1`. -/
def c2State : WebhookMap := [("chat-1", c2ConfigA)]

/-- Registration request subsequently sent by `did:b` for the same chat. -/
def c2Request : WebhookInput :=
  { url := "https://b.example/hook", secret := some "s-b",
    retryAttempts := none, timeout := none }

/-- Configuration and state for the C7 witness. -/
def c7Config : WebhookConfig :=
  { url := "https://a.example/hook", chatId := "chat-1", ownerDid := "did:a",
    secret := "s-7", active := true, retryAttempts := 3, timeout := 5000 }

/-- Manager state for the C7 witness. -/
def c7State : WebhookMap := [("chat-1", c7Config)]

/-- Configuration for the C8 witness. -/
def c8Config : WebhookConfig :=
  { url := "https://a.example/hook", chatId := "chat-8", ownerDid := "did:a",
    secret := "s-8", active := true, retryAttempts := 3, timeout := 5000 }

/-- Manager state for the C8 witness. -/
def c8State : WebhookMap := [("chat-8", c8Config)]

/-- The blob the toy C10 instantiation produces for `encrypt("did:a", "42")`
with salt "salt", iv "iv", timestamp "now", an identity cipher and an identity
checksum. -/
def c10Blob : EncryptedCredential :=
  ⟨"1.0", "aes-256-cbc", "42", "salt", "iv", "now", "did:a", "42"⟩

/-- The toy `JSON.parse` used for C10: only the original serialized credential
parses back; the tampered ciphertext decrypts to a non-parsing string. -/
def c10Parse (s : String) : Option String :=
  if s = "42" then some s else none

/-! ### Association-list lemmas -/

theorem mem_of_mapGet_eq_some {κ α : Type} [DecidableEq κ] {m : List (κ × α)}
    {k : κ} {v : α} (h : mapGet m k = some v) : (k, v) ∈ m := by
  induction m with
  | nil => simp [mapGet] at h
  | cons p rest ih =>
      obtain ⟨k', v'⟩ := p
      by_cases hk : k' = k
      · subst hk
        simp [mapGet] at h
        subst h
        exact List.mem_cons_self _ _
      · simp [mapGet, hk] at h
        exact List.mem_cons_of_mem _ (ih h)

theorem mapGet_eq_some_of_mem {κ α : Type} [DecidableEq κ] {m : List (κ × α)}
    {k : κ} {v : α} (hnd : (m.map Prod.fst).Nodup) (hm : (k, v) ∈ m) :
    mapGet m k = some v := by
  induction m with
  | nil => simp at hm
  | cons p rest ih =>
      obtain ⟨k', v'⟩ := p
      simp only [List.map_cons, List.nodup_cons] at hnd
      rcases List.mem_cons.mp hm with heq | hmem
      · obtain ⟨h1, h2⟩ := Prod.mk.injEq .. ▸ heq
        simp only [Prod.mk.injEq] at heq
        simp [mapGet, heq.1, heq.2]
      · have hk : k' ≠ k := by
          intro hkk
          subst hkk
          exact hnd.1 (List.mem_map_of_mem Prod.fst hmem)
        simp [mapGet, hk]
        exact ih hnd.2 hmem

theorem mapGet_eq_none_iff {κ α : Type} [DecidableEq κ] {m : List (κ × α)}
    {k : κ} : mapGet m k = none ↔ k ∉ m.map Prod.fst := by
  induction m with
  | nil => simp [mapGet]
  | cons p rest ih =>
      obtain ⟨k', v'⟩ := p
      by_cases hk : k' = k
      · subst hk
        simp [mapGet]
      · simp [mapGet, hk, ih, Ne.symm hk]

theorem mem_mapSet {κ α : Type} [DecidableEq κ] {m : List (κ × α)} {k : κ}
    {v : α} {p : κ × α} (h : p ∈ mapSet m k v) : p = (k, v) ∨ p ∈ m := by
  induction m with
  | nil => simpa [mapSet] using h
  | cons q rest ih =>
      obtain ⟨k', v'⟩ := q
      by_cases hk : k' = k
      · subst hk
        simp [mapSet] at h
        rcases h with h | h
        · exact Or.inl h
        · exact Or.inr (List.mem_cons_of_mem _ h)
      · simp [mapSet, hk] at h
        rcases h with h | h
        · exact Or.inr (List.mem_cons.mpr (Or.inl h))
        · rcases ih h with h' | h'
          · exact Or.inl h'
          · exact Or.inr (List.mem_cons_of_mem _ h')

theorem mapSet_keys {κ α : Type} [DecidableEq κ] (m : List (κ × α)) (k : κ)
    (v : α) :
    (mapSet m k v).map Prod.fst =
      (if k ∈ m.map Prod.fst then m.map Prod.fst else m.map Prod.fst ++ [k]) := by
  induction m with
  | nil => simp [mapSet]
  | cons q rest ih =>
      obtain ⟨k', v'⟩ := q
      by_cases hk : k' = k
      · subst hk
        simp [mapSet]
      · by_cases hmem : k ∈ rest.map Prod.fst
        · simp [mapSet, hk, ih, hmem, Ne.symm hk]
        · simp [mapSet, hk, ih, hmem, Ne.symm hk]

theorem mapSet_ne_nil {κ α : Type} [DecidableEq κ] (m : List (κ × α)) (k : κ)
    (v : α) : mapSet m k v ≠ [] := by
  cases m with
  | nil => simp [mapSet]
  | cons q rest =>
      obtain ⟨k', v'⟩ := q
      by_cases hk : k' = k <;> simp [mapSet, hk]

theorem mem_mapDelete {κ α : Type} [DecidableEq κ] {m : List (κ × α)} {k : κ}
    {p : κ × α} (h : p ∈ mapDelete m k) : p ∈ m ∧ p.1 ≠ k := by
  induction m with
  | nil => simp [mapDelete] at h
  | cons q rest ih =>
      obtain ⟨k', v'⟩ := q
      by_cases hk : k' = k
      · subst hk
        simp only [mapDelete, if_pos rfl] at h
        obtain ⟨h1, h2⟩ := ih h
        exact ⟨List.mem_cons_of_mem _ h1, h2⟩
      · simp only [mapDelete, if_neg hk] at h
        rcases List.mem_cons.mp h with heq | hmem
        · subst heq
          exact ⟨List.mem_cons_self _ _, hk⟩
        · obtain ⟨h1, h2⟩ := ih hmem
          exact ⟨List.mem_cons_of_mem _ h1, h2⟩

theorem mapDelete_keys {κ α : Type} [DecidableEq κ] (m : List (κ × α)) (k : κ) :
    (mapDelete m k).map Prod.fst = (m.map Prod.fst).filter (fun x => x ≠ k) := by
  induction m with
  | nil => simp [mapDelete]
  | cons q rest ih =>
      obtain ⟨k', v'⟩ := q
      by_cases hk : k' = k
      · subst hk
        simp [mapDelete, ih]
      · simp [mapDelete, hk, ih]

theorem mapDelete_of_not_mem {κ α : Type} [DecidableEq κ] {m : List (κ × α)}
    {k : κ} (h : k ∉ m.map Prod.fst) : mapDelete m k = m := by
  induction m with
  | nil => simp [mapDelete]
  | cons q rest ih =>
      obtain ⟨k', v'⟩ := q
      simp only [List.map_cons, List.mem_cons] at h
      push_neg at h
      simp [mapDelete, Ne.symm h.1, ih h.2]

theorem mem_setAdd_of_mem {α : Type} [DecidableEq α] {s : List α} {a : α}
    (b : α) (h : a ∈ s) : a ∈ setAdd s b := by
  unfold setAdd
  split
  · exact h
  · exact List.mem_append_left _ h

theorem inv_connect (d : Did) (st : ServerState) (c : ConnId) (hInv : Inv d st) :
    Inv d (handleConnection st c).1 := by
  obtain ⟨h1, h2, h3⟩ := hInv
  refine ⟨?_, h2, h3⟩
  intro p hp
  obtain ⟨hpd, hpc⟩ := h1 p hp
  exact ⟨hpd, mem_setAdd_of_mem c hpc⟩

theorem inv_auth (d : Did) (st : ServerState) (c : ConnId) (hInv : Inv d st)
    (hc : c ∈ st.clients) : Inv d (handleAuthentication st c d).1 := by
  obtain ⟨h1, h2, h3⟩ := hInv
  unfold handleAuthentication
  by_cases hd : d = ""
  · rw [if_pos hd]
    exact ⟨h1, h2, h3⟩
  · rw [if_neg hd]
    simp only
    unfold setUserOnline
    by_cases hm : st.clientDids = []
    · rw [if_pos hm] at h3
      refine ⟨?_, ?_, ?_⟩
      · intro p hp
        simp only [hm, mapSet] at hp
        simp only [List.mem_singleton] at hp
        subst hp
        exact ⟨rfl, hc⟩
      · simp [hm, mapSet]
      · simp [hm, h3, mapSet, mapGet, setAdd]
    · rw [if_neg hm] at h3
      refine ⟨?_, ?_, ?_⟩
      · intro p hp
        rcases mem_mapSet hp with heq | hmem
        · subst heq
          exact ⟨rfl, hc⟩
        · exact h1 p hmem
      · rw [mapSet_keys]
        split
        · exact h2
        · rename_i hnotmem
          rw [List.nodup_append]
          refine ⟨h2, List.nodup_singleton c, ?_⟩
          intro a ha hb
          simp only [List.mem_singleton] at hb
          subst hb
          exact hnotmem ha
      · simp only [h3, mapGet, if_pos rfl, Option.getD_some, mapSet,
          mapSet_ne_nil, if_neg (mapSet_ne_nil st.clientDids c d)]
        rw [mapSet_keys]
        unfold setAdd
        by_cases hck : c ∈ st.clientDids.map Prod.fst
        · simp [hck]
        · simp [hck]

theorem disconnect_unauth_eq (st : ServerState) (c : ConnId)
    (hget : mapGet st.clientDids c = none) :
    handleDisconnection st c =
      ({ st with clients := st.clients.filter (fun x => x ≠ c)
                 clientDids := mapDelete st.clientDids c }, noOutput) := by
  unfold handleDisconnection
  rw [hget]

theorem disconnect_authed_eq (st : ServerState) (c : ConnId) (d : Did)
    (ks : List ConnId) (hget : mapGet st.clientDids c = some d)
    (honline : st.onlineUsers = [(d, ⟨ks⟩)]) :
    handleDisconnection st c =
      (if ks.filter (fun x => x ≠ c) = [] then
        ({ clients := st.clients.filter (fun x => x ≠ c)
           clientDids := mapDelete st.clientDids c
           onlineUsers := [] },
         { sends := (st.clients.filter (fun x => x ≠ c)).map
             (fun cl => (cl, Envelope.userOffline d))
           broadcasts := [.userOffline d]
           triggers := [] })
      else
        ({ clients := st.clients.filter (fun x => x ≠ c)
           clientDids := mapDelete st.clientDids c
           onlineUsers := [(d, ⟨ks.filter (fun x => x ≠ c)⟩)] }, noOutput)) := by
  unfold handleDisconnection
  rw [hget]
  unfold setUserOffline
  simp only [honline]
  have hmg : mapGet [(d, (⟨ks⟩ : UserInfo))] d = some ⟨ks⟩ := by
    simp [mapGet]
  simp only [hmg]
  by_cases hr : ks.filter (fun x => x ≠ c) = []
  · rw [if_pos hr, if_pos hr]
    have hdel : mapDelete [(d, (⟨ks⟩ : UserInfo))] d = [] := by
      simp [mapDelete]
    simp only [hdel, mapGet, Option.isSome_none, Bool.false_eq_true, if_false,
      broadcastSends]
  · rw [if_neg hr, if_neg hr]
    have hset : mapSet [(d, (⟨ks⟩ : UserInfo))] d ⟨ks.filter (fun x => x ≠ c)⟩ =
        [(d, ⟨ks.filter (fun x => x ≠ c)⟩)] := by
      simp [mapSet]
    simp only [hset]
    have hmg2 : mapGet [(d, (⟨ks.filter (fun x => x ≠ c)⟩ : UserInfo))] d =
        some ⟨ks.filter (fun x => x ≠ c)⟩ := by
      simp [mapGet]
    simp only [hmg2, Option.isSome_some, if_true]

theorem inv_disconnect (d : Did) (st : ServerState) (c : ConnId)
    (hInv : Inv d st) : Inv d (handleDisconnection st c).1 := by
  obtain ⟨h1, h2, h3⟩ := hInv
  cases hget : mapGet st.clientDids c with
  | none =>
      have hck : c ∉ st.clientDids.map Prod.fst := mapGet_eq_none_iff.mp hget
      rw [disconnect_unauth_eq st c hget]
      rw [mapDelete_of_not_mem hck] -- hmm, rewrite inside record
      refine ⟨?_, h2, h3⟩
      intro p hp
      obtain ⟨hpd, hpc⟩ := h1 p hp
      refine ⟨hpd, List.mem_filter.mpr ⟨hpc, ?_⟩⟩
      simp only [decide_eq_true_eq]
      intro hpc'
      exact hck (hpc' ▸ List.mem_map_of_mem Prod.fst hp)
  | some did0 =>
      have hmem : (c, did0) ∈ st.clientDids := mem_of_mapGet_eq_some hget
      have hd0 : did0 = d := (h1 _ hmem).1
      rw [hd0] at hget hmem
      have hck : c ∈ st.clientDids.map Prod.fst :=
        List.mem_map_of_mem Prod.fst hmem
      have hm : st.clientDids ≠ [] := by
        intro hnil
        rw [hnil] at hmem
        exact List.not_mem_nil _ hmem
      rw [if_neg hm] at h3
      rw [disconnect_authed_eq st c d (st.clientDids.map Prod.fst) hget h3]
      have hdelkeys : (mapDelete st.clientDids c).map Prod.fst =
          (st.clientDids.map Prod.fst).filter (fun x => x ≠ c) :=
        mapDelete_keys st.clientDids c
      by_cases hr : (st.clientDids.map Prod.fst).filter (fun x => x ≠ c) = []
      · rw [if_pos hr]
        have hdelnil : mapDelete st.clientDids c = [] :=
          List.map_eq_nil_iff.mp (hdelkeys.trans hr)
        refine ⟨?_, ?_, ?_⟩
        · intro p hp
          rw [hdelnil] at hp
          exact absurd hp (List.not_mem_nil p)
        · rw [hdelkeys, hr]
          exact List.nodup_nil
        · rw [hdelnil]
          rfl
      · rw [if_neg hr]
        have hdelnotnil : mapDelete st.clientDids c ≠ [] := by
          intro hnil
          rw [hnil] at hdelkeys
          exact hr hdelkeys.symm
        refine ⟨?_, ?_, ?_⟩
        · intro p hp
          obtain ⟨hpm, hpc⟩ := mem_mapDelete hp
          obtain ⟨hpd, hpcl⟩ := h1 p hpm
          refine ⟨hpd, List.mem_filter.mpr ⟨hpcl, by simpa using hpc⟩⟩
        · rw [hdelkeys]
          exact h2.filter _
        · simp only [if_neg hdelnotnil, hdelkeys]

theorem inv_step (d : Did) (st : ServerState) (e : Ev) (hInv : Inv d st)
    (hv : validEv d st e = true) : Inv d (step st e).1 := by
  cases e with
  | connect c => exact inv_connect d st c hInv
  | auth c did =>
      simp only [validEv, Bool.and_eq_true, decide_eq_true_eq] at hv
      obtain ⟨hc, hdid⟩ := hv
      rw [hdid]
      exact inv_auth d st c hInv hc
  | disconnect c => exact inv_disconnect d st c hInv

theorem inv_initial (d : Did) : Inv d initialState := by
  refine ⟨?_, ?_, ?_⟩
  · intro p hp
    exact absurd hp (List.not_mem_nil p)
  · exact List.nodup_nil
  · rfl

theorem inv_run (d : Did) (st : ServerState) (es : List Ev) (hInv : Inv d st)
    (hv : validTrace d st es = true) : Inv d (runState st es) := by
  induction es generalizing st with
  | nil => exact hInv
  | cons e es ih =>
      simp only [validTrace, Bool.and_eq_true] at hv
      exact ih (step st e).1 (inv_step d st e hInv hv.1) hv.2

theorem filter_ne_eq_nil_iff {α : Type} [DecidableEq α] {l : List α} {c : α}
    (hnd : l.Nodup) (hc : c ∈ l) :
    l.filter (fun x => x ≠ c) = [] ↔ l = [c] := by
  constructor
  · intro hfil
    have hall : ∀ x ∈ l, x = c := by
      intro x hx
      by_contra hxc
      have : x ∈ l.filter (fun x => x ≠ c) :=
        List.mem_filter.mpr ⟨hx, by simpa using hxc⟩
      rw [hfil] at this
      exact List.not_mem_nil x this
    cases l with
    | nil => exact absurd hc (List.not_mem_nil c)
    | cons a t =>
        have ha : a = c := hall a (List.mem_cons_self a t)
        subst ha
        rw [List.nodup_cons] at hnd
        cases t with
        | nil => rfl
        | cons b u =>
            have hb : b = a := hall b (List.mem_cons_of_mem a (List.mem_cons_self b u))
            subst hb
            exact absurd (List.mem_cons_self b u) hnd.1
  · intro hl
    rw [hl]
    simp

theorem online_iff_of_inv (d : Did) (st : ServerState) (hInv : Inv d st) :
    (mapGet st.onlineUsers d).isSome = true ↔
      ∃ c, c ∈ st.clients ∧ mapGet st.clientDids c = some d := by
  obtain ⟨h1, h2, h3⟩ := hInv
  by_cases hm : st.clientDids = []
  · rw [if_pos hm] at h3
    rw [h3]
    simp only [mapGet, Option.isSome_none, Bool.false_eq_true, false_iff]
    rintro ⟨c, _, hc⟩
    rw [hm] at hc
    simp [mapGet] at hc
  · rw [if_neg hm] at h3
    have hms : mapGet st.onlineUsers d = some ⟨st.clientDids.map Prod.fst⟩ := by
      rw [h3]
      simp [mapGet]
    rw [hms]
    refine ⟨fun _ => ?_, fun _ => rfl⟩
    obtain ⟨p, hp⟩ := List.exists_mem_of_ne_nil st.clientDids hm
    obtain ⟨hpd, hpc⟩ := h1 p hp
    refine ⟨p.1, hpc, ?_⟩
    have hpm : (p.1, d) ∈ st.clientDids := by
      rw [← hpd]
      exact hp
    exact mapGet_eq_some_of_mem h2 hpm

theorem step_broadcasts (d : Did) (st : ServerState) (hInv : Inv d st)
    (e : Ev) :
    validEv d st e = true →
    (step st e).2.broadcasts =
      (match e with
       | .connect _ => []
       | .auth _ did => if did = "" then [] else [Envelope.userOnline did]
       | .disconnect c =>
           if authedConns st d = [c] then [Envelope.userOffline d] else []) := by
  intro hv
  obtain ⟨h1, h2, h3⟩ := hInv
  have hac : authedConns st d = st.clientDids.map Prod.fst := by
    unfold authedConns
    have hfe : st.clientDids.filter (fun p => p.2 = d) = st.clientDids := by
      apply List.filter_eq_self.mpr
      intro p hp
      exact decide_eq_true ((h1 p hp).1)
    rw [hfe]
  cases e with
  | connect c => rfl
  | auth c did =>
      by_cases hd : did = ""
      · simp [step, handleAuthentication, hd, noOutput]
      · simp [step, handleAuthentication, hd]
  | disconnect c =>
      simp only [step]
      cases hget : mapGet st.clientDids c with
      | none =>
          have hck : c ∉ st.clientDids.map Prod.fst := mapGet_eq_none_iff.mp hget
          have hne : authedConns st d ≠ [c] := by
            rw [hac]
            intro hk
            rw [hk] at hck
            exact hck (List.mem_singleton.mpr rfl)
          rw [disconnect_unauth_eq st c hget]
          simp [noOutput, hne]
      | some did0 =>
          have hmem := mem_of_mapGet_eq_some hget
          have hd0 : did0 = d := (h1 _ hmem).1
          rw [hd0] at hget hmem
          have hck : c ∈ st.clientDids.map Prod.fst :=
            List.mem_map_of_mem Prod.fst hmem
          have hm : st.clientDids ≠ [] := by
            intro hnil
            rw [hnil] at hmem
            exact List.not_mem_nil _ hmem
          rw [if_neg hm] at h3
          rw [disconnect_authed_eq st c d (st.clientDids.map Prod.fst) hget h3]
          by_cases hr : (st.clientDids.map Prod.fst).filter (fun x => x ≠ c) = []
          · have hkeys : st.clientDids.map Prod.fst = [c] :=
              (filter_ne_eq_nil_iff h2 hck).mp hr
            rw [if_pos hr]
            simp [hac, hkeys]
          · have hkeys : st.clientDids.map Prod.fst ≠ [c] := by
              intro hk
              exact hr ((filter_ne_eq_nil_iff h2 hck).mpr hk)
            rw [if_neg hr]
            simp [noOutput, hac, hkeys]

/-- Claim C6: along any valid sequence of connect/authenticate/disconnect
events whose authentications all claim identity `d`, (i) the identity is
reported online (has an `onlineUsers` entry) iff at least one currently-open
connection is authenticated as `d`, and (ii) the next event broadcasts
`user_offline` exactly once iff it is the disconnect of the last remaining
open connection authenticated as `d` (`authedConns st d = [c]`), and never
otherwise — so over a whole trace exactly one offline event fires, at the
moment the last of the identity's connections closes. -/
theorem c6_presence_invariant (d : Did) (es : List Ev)
    (hv : validTrace d initialState es = true) :
    ((mapGet (runState initialState es).onlineUsers d).isSome = true ↔
       ∃ c, c ∈ (runState initialState es).clients ∧
         mapGet (runState initialState es).clientDids c = some d) ∧
    (∀ e, validEv d (runState initialState es) e = true →
       (step (runState initialState es) e).2.broadcasts =
         (match e with
          | .connect _ => []
          | .auth _ did => if did = "" then [] else [Envelope.userOnline did]
          | .disconnect c =>
              if authedConns (runState initialState es) d = [c] then
                [Envelope.userOffline d]
              else [])) := by
  have hInv := inv_run d initialState es (inv_initial d) hv
  exact ⟨online_iff_of_inv d _ hInv, fun e he => step_broadcasts d _ hInv e he⟩

/-- Witness for C6: after `connect 0, auth 0, connect 1, auth 1, disconnect 0`
(identity `did:a` still online through socket 1, and no offline event fired
yet), disconnecting socket 1 — the last one — broadcasts exactly one
`user_offline`. -/
theorem c6_presence_invariant_witness :
    (step (runState initialState
        [Ev.connect 0, Ev.auth 0 "did:a", Ev.connect 1, Ev.auth 1 "did:a",
         Ev.disconnect 0]) (Ev.disconnect 1)).2.broadcasts =
      [Envelope.userOffline "did:a"] := by
  have h := (c6_presence_invariant "did:a"
    [Ev.connect 0, Ev.auth 0 "did:a", Ev.connect 1, Ev.auth 1 "did:a",
     Ev.disconnect 0] (by decide)).2 (Ev.disconnect 1) (by decide)
  rw [h]
  decide

/-! ### Claims C1, C4, C5 — message relay and presence handlers -/

/-- Claim C1 counterexample: with sender socket 0 (authenticated as `did:a`)
and socket 1 open but unauthenticated, the chat message is delivered both back
to the sender 0 and to the unauthenticated socket 1, contradicting the claim
that it is delivered neither back to C nor to any unauthenticated
connection. -/
theorem c1_chat_broadcast_counterexample :
    mapGet c1State.clientDids 1 = none ∧
    (handleChatMessage c1State 0 (some "c1") "hi").2.sends =
      [(0, Envelope.chatMessage (some "c1") "hi" "did:a"),
       (1, Envelope.chatMessage (some "c1") "hi" "did:a")] := by
  exact ⟨rfl, rfl⟩

/-- Claim C1 (amended): a `chat_message` from an authenticated connection is
delivered, server-stamped, to every currently-open connection — hence to every
other authenticated connection, but also echoed back to the sender and sent to
open unauthenticated connections (`broadcast` does not exclude them). -/
theorem c1_chat_broadcast_amended (st : ServerState) (c : ConnId) (did : Did)
    (chatId : Option String) (content : String)
    (hauth : mapGet st.clientDids c = some did) :
    (handleChatMessage st c chatId content).2.sends =
      st.clients.map (fun cl => (cl, Envelope.chatMessage chatId content did)) := by
  unfold handleChatMessage
  rw [hauth]
  rfl

/-- Witness for the amended C1 at a concrete state. -/
theorem c1_chat_broadcast_amended_witness :
    (handleChatMessage c1State 0 (some "c1") "hi").2.sends =
      c1State.clients.map
        (fun cl => (cl, Envelope.chatMessage (some "c1") "hi" "did:a")) :=
  c1_chat_broadcast_amended c1State 0 "did:a" (some "c1") "hi" (by decide)

/-- Claim C4: for an authenticated sender and an `encrypted_chat` envelope
carrying a (truthy) chatId and encryptedPayload, the handler forwards the
payload to the other authenticated connections, acknowledges with
`encrypted_chat_sent`, and then — because building the webhook event reads the
unbound `toDid` — always also sends `encrypted_chat_error` to the sender and
never invokes the webhook trigger (`triggers = []`); the state is unchanged. -/
theorem c4_encrypted_chat_error_path (st : ServerState) (c : ConnId) (did : Did)
    (cid pl : String) (hauth : mapGet st.clientDids c = some did)
    (hcid : cid ≠ "") (hpl : pl ≠ "") :
    handleEncryptedChat st c (some cid) (some pl) =
      (st,
       { sends :=
           ((st.clients.filter
               (fun cl => cl ≠ c && (mapGet st.clientDids cl).isSome)).map
             (fun cl => (cl, Envelope.encryptedChat cid pl did))) ++
           [(c, Envelope.encryptedChatSent cid),
            (c, Envelope.encryptedChatError "Falha ao enviar mensagem criptografada")]
         broadcasts := []
         triggers := [] }) := by
  unfold handleEncryptedChat
  rw [hauth]
  simp [jsTruthy, hcid, hpl, evalToDid]

/-- Witness for C4 at a concrete state: socket 1 (the other authenticated one)
receives the ciphertext, socket 2 (unauthenticated) does not, the sender gets
the acknowledgement and then the error, and no webhook trigger fires. -/
theorem c4_encrypted_chat_error_path_witness :
    handleEncryptedChat c4State 0 (some "c1") (some "blob") =
      (c4State,
       { sends :=
           ((c4State.clients.filter
               (fun cl => cl ≠ 0 && (mapGet c4State.clientDids cl).isSome)).map
             (fun cl => (cl, Envelope.encryptedChat "c1" "blob" "did:a"))) ++
           [(0, Envelope.encryptedChatSent "c1"),
            (0, Envelope.encryptedChatError "Falha ao enviar mensagem criptografada")]
         broadcasts := []
         triggers := [] }) :=
  c4_encrypted_chat_error_path c4State 0 "did:a" "c1" "blob" (by decide)
    (by decide) (by decide)

/-- Claim C5 counterexample: `did:a` already has an open authenticated
connection (socket 0), yet authenticating socket 1 under the same identity
still broadcasts a `user_online` presence event — contradicting the claim that
no presence event is produced unless the identity transitions from Absent to
Online. -/
theorem c5_user_online_rebroadcast_counterexample :
    (mapGet c5State.onlineUsers "did:a").isSome = true ∧
    0 ∈ c5State.clients ∧
    mapGet c5State.clientDids 0 = some "did:a" ∧
    (handleAuthentication c5State 1 "did:a").2.broadcasts =
      [Envelope.userOnline "did:a"] := by
  decide

/-- Claim C5 (amended): every successful authentication (non-empty DID)
broadcasts exactly one `user_online` event, whether or not the identity
already had open authenticated connections — `handleAuthentication` calls
`broadcastUserOnline` unconditionally. -/
theorem c5_user_online_every_auth (st : ServerState) (c : ConnId) (did : Did)
    (hdid : did ≠ "") :
    (handleAuthentication st c did).2.broadcasts = [Envelope.userOnline did] := by
  unfold handleAuthentication
  rw [if_neg hdid]

/-- Witness for the amended C5 at a concrete state in which the identity is
already online. -/
theorem c5_user_online_every_auth_witness :
    (handleAuthentication c5State 1 "did:a").2.broadcasts =
      [Envelope.userOnline "did:a"] :=
  c5_user_online_every_auth c5State 1 "did:a" (by decide)

/-! ### Claims C2, C3, C7, C8 — WebhookManager -/

/-- Claim C2, evaluated at the failing input: although `canConfigureWebhook`
reports that `did:b` may not configure `chat-1` (a configuration owned by
`did:a` exists), `registerWebhook` performs no authorization check — the call
by `did:b` raises no Unauthorized error and replaces `did:a`'s configuration
outright. -/
theorem c2_register_overwrites_foreign_config :
    canConfigureWebhook c2State "chat-1" "did:b" = false ∧
    (registerWebhook "fresh-secret" c2State "chat-1" "did:b" c2Request).2 =
      [("chat-1",
        { url := "https://b.example/hook", chatId := "chat-1",
          ownerDid := "did:b", secret := "s-b", active := true,
          retryAttempts := 3, timeout := 5000 })] := by
  exact ⟨rfl, rfl⟩

/-- Claim C3, evaluated on the code: `testWebhook` returns `false` for every
manager state and chat — even when an active configuration exists and whatever
the remote endpoint would answer — because its only delivery step calls the
nonexistent method `this.sendWebhook`, whose `TypeError` the `catch` turns
into `false`.  No HTTP request is ever issued. -/
theorem c3_test_webhook_always_false (st : WebhookMap) (chatId : String) :
    testWebhook st chatId = false := by
  unfold testWebhook
  cases h : mapGet st chatId with
  | none => rfl
  | some config =>
      by_cases ha : config.active = false
      · simp [ha]
      · simp [ha, sendWebhookCall]

/-- Claim C7: with `retryAttempts = 3` and an endpoint answering 500, 500, 200
to the successive POSTs of one trigger, exactly three HTTP attempts are made,
and each one carries the same JSON body together with the HMAC-SHA256
signature of that exact body under the configuration's secret. -/
theorem c7_retry_three_attempts_signed (hmac : String → String → String)
    (endpoint : Nat → Nat) (st : WebhookMap) (chatId jsonPayload : String)
    (webhook : WebhookConfig) (hget : mapGet st chatId = some webhook)
    (hact : webhook.active = true) (hra : webhook.retryAttempts = 3)
    (e1 : endpoint 1 = 500) (e2 : endpoint 2 = 500) (e3 : endpoint 3 = 200) :
    triggerWebhookCalls hmac endpoint st chatId jsonPayload =
      [⟨jsonPayload, hmac jsonPayload webhook.secret⟩,
       ⟨jsonPayload, hmac jsonPayload webhook.secret⟩,
       ⟨jsonPayload, hmac jsonPayload webhook.secret⟩] := by
  have h1 : isSuccessStatus (endpoint 1) = false := by rw [e1]; rfl
  have h2 : isSuccessStatus (endpoint 2) = false := by rw [e2]; rfl
  have h3 : isSuccessStatus (endpoint 3) = true := by rw [e3]; rfl
  unfold triggerWebhookCalls
  simp only [hget, hact, h1, Bool.false_eq_true, if_false]
  rw [retryFrom]
  simp only [hra, h2, Bool.false_eq_true, if_false]
  rw [retryFrom]
  simp only [hra, h3, if_true]
  norm_num

/-- Witness for C7 with a concrete HMAC model and an endpoint failing twice
then succeeding. -/
theorem c7_retry_three_attempts_signed_witness :
    triggerWebhookCalls (fun data secret => data ++ secret)
      (fun k => if k = 3 then 200 else 500) c7State "chat-1" "body" =
      [⟨"body", "body" ++ c7Config.secret⟩,
       ⟨"body", "body" ++ c7Config.secret⟩,
       ⟨"body", "body" ++ c7Config.secret⟩] :=
  c7_retry_three_attempts_signed (fun data secret => data ++ secret)
    (fun k => if k = 3 then 200 else 500) c7State "chat-1" "body" c7Config
    (by decide) (by decide) (by decide) (by decide) (by decide) (by decide)

/-- Claim C8: a `remove_webhook` by a non-owner fails with the authorization
error and leaves the state — and in particular the owner's configuration —
untouched, while removal by the owner deletes the configuration. -/
theorem c8_remove_webhook_owner_only (st : WebhookMap) (chatId A B : String)
    (cfg : WebhookConfig) (hget : mapGet st chatId = some cfg)
    (hown : cfg.ownerDid = A) (hne : B ≠ A) :
    removeWebhook st chatId B =
      (.error "Apenas o dono da sala pode remover o webhook", st) ∧
    mapGet (removeWebhook st chatId B).2 chatId = some cfg ∧
    removeWebhook st chatId A = (.ok true, mapDelete st chatId) := by
  have hBne : cfg.ownerDid ≠ B := by
    rw [hown]
    exact fun h => hne h.symm
  have hAeq : ¬cfg.ownerDid ≠ A := by
    rw [hown]
    simp
  refine ⟨?_, ?_, ?_⟩
  · simp only [removeWebhook, hget, if_pos hBne]
  · simp only [removeWebhook, hget, if_pos hBne]
  · simp only [removeWebhook, hget, if_neg hAeq]

/-- Witness for C8 at a concrete state. -/
theorem c8_remove_webhook_owner_only_witness :
    removeWebhook c8State "chat-8" "did:b" =
      (.error "Apenas o dono da sala pode remover o webhook", c8State) ∧
    mapGet (removeWebhook c8State "chat-8" "did:b").2 "chat-8" = some c8Config ∧
    removeWebhook c8State "chat-8" "did:a" = (.ok true, mapDelete c8State "chat-8") :=
  c8_remove_webhook_owner_only c8State "chat-8" "did:a" "did:b" c8Config
    (by decide) (by decide) (by decide)

/-! ### Claims C9, C10 — CredentialCryptoService -/

/-- Claim C9: for any deterministic key derivation, any cipher pair inverting
on the derived key, and a JSON round-trip that reproduces the credential,
decrypting (as the same identity) the blob produced by encryption returns the
original credential. -/
theorem c9_encrypt_decrypt_roundtrip {α : Type} (kdf : String → String → String)
    (enc : String → String → String) (dec : String → String → Option String)
    (sha256hex : String → String) (stringify : α → String)
    (parse : String → Option α) (salt iv now userDid : String) (cred : α)
    (hdid : userDid ≠ "")
    (hcipher : dec (kdf userDid salt) (enc (kdf userDid salt) (stringify cred)) =
      some (stringify cred))
    (hjson : parse (stringify cred) = some cred) :
    Except.bind
      (encryptCredential kdf enc sha256hex stringify salt iv now userDid cred)
      (fun b => decryptCredential kdf dec parse userDid b) = .ok cred := by
  unfold encryptCredential
  rw [if_neg hdid]
  simp only [Except.bind]
  unfold decryptCredential
  rw [if_neg hdid]
  simp [hcipher, hjson]

/-- Witness for C9 with concrete collaborators (identity cipher, identity
serialization of a string credential). -/
theorem c9_encrypt_decrypt_roundtrip_witness :
    Except.bind
      (encryptCredential (fun d s => d ++ s) (fun _ s => s) (fun s => s)
        (fun s : String => s) "salt" "iv" "now" "did:a" "credential")
      (fun b => decryptCredential (fun d s => d ++ s) (fun _ s => some s)
        (fun s => some s) "did:a" b) = .ok "credential" :=
  c9_encrypt_decrypt_roundtrip (fun d s => d ++ s) (fun _ s => s)
    (fun _ s => some s) (fun s => s) (fun s : String => s)
    (fun s => some s) "salt" "iv" "now" "did:a" "credential" (by decide)
    (by decide) (by decide)

/-- Claim C10 counterexample (with the same concrete collaborators as the C9
witness): decrypting the blob as `did:b` and decrypting a ciphertext-mutated
copy as `did:a` both fail with the *identical* generic error — the failure
modes are not distinguishable — and a blob whose checksum field is corrupted
still decrypts successfully, so `decryptCredential` performs no checksum
check; only the separate `validateCredentialIntegrity` notices. -/
theorem c10_failure_modes_counterexample :
    encryptCredential (fun d s => d ++ s) (fun _ s => s) (fun s => s)
        (fun s : String => s) "salt" "iv" "now" "did:a" "42" = .ok c10Blob ∧
    decryptCredential (fun d s => d ++ s) (fun _ s => some s)
        c10Parse "did:b" c10Blob =
      (.error "Falha na descriptografia da credencial" : Except String String) ∧
    decryptCredential (fun d s => d ++ s) (fun _ s => some s)
        c10Parse "did:a" { c10Blob with encrypted := "4x" } =
      (.error "Falha na descriptografia da credencial" : Except String String) ∧
    decryptCredential (fun d s => d ++ s) (fun _ s => some s)
        c10Parse "did:a" { c10Blob with checksum := "bogus" } =
      (.ok "42" : Except String String) ∧
    validateCredentialIntegrity (fun s => s) { c10Blob with checksum := "bogus" } =
      false := by
  exact ⟨rfl, rfl, rfl, rfl, by decide⟩

/-- Claim C10 (amended): decryption as a non-owner fails closed, but with the
same generic error message every other decryption failure produces (the
`catch` collapses them, so ownership and integrity failures are not
distinguishable), and `decryptCredential` never consults the stored checksum:
its result is invariant under arbitrary changes of the checksum field. -/
theorem c10_decrypt_failure_modes {α : Type} (kdf : String → String → String)
    (dec : String → String → Option String) (parse : String → Option α)
    (userDid otherId : String) (b : EncryptedCredential)
    (hother : otherId ≠ "") (hown : b.userDid ≠ otherId) :
    decryptCredential kdf dec parse otherId b =
      (.error "Falha na descriptografia da credencial" : Except String α) ∧
    ∀ cks : String,
      decryptCredential kdf dec parse userDid { b with checksum := cks } =
        decryptCredential kdf dec parse userDid b := by
  constructor
  · unfold decryptCredential
    rw [if_neg hother, if_pos hown]
  · intro cks
    rfl

/-- Witness for the amended C10 at the concrete blob. -/
theorem c10_decrypt_failure_modes_witness :
    decryptCredential (fun d s => d ++ s) (fun _ s => some s)
        c10Parse "did:b" c10Blob =
      (.error "Falha na descriptografia da credencial" : Except String String) ∧
    decryptCredential (fun d s => d ++ s) (fun _ s => some s)
        c10Parse "did:a" { c10Blob with checksum := "bogus" } =
      decryptCredential (fun d s => d ++ s) (fun _ s => some s)
        c10Parse "did:a" c10Blob := by
  have h := c10_decrypt_failure_modes (fun d s => d ++ s) (fun _ s => some s)
    c10Parse "did:a" "did:b" c10Blob (by decide) (by decide)
  exact ⟨h.1, h.2 "bogus"⟩

end ChatWeb5
